import Mathlib

/-!
Verification of the Quran fruit-analysis program (`find.py`).

The program is a small pandas/sklearn pipeline:
  * `_normalize_arabic` — character-level normalization of Arabic text;
  * `__init__` — CSV load, `dropna`, normalization, `pd.to_numeric(errors=coerce)`;
  * `find_related_verses` — TF-IDF cosine-similarity top-n query;
  * `analyze_fruits_frequency` — substring counts for a fixed fruit lexicon.

Python strings are modelled as lists of Unicode code points (`List Nat`);
pandas cell values as the inductive `Value` (a string, a number, or the NaN
missing-value sentinel).  Library calls (pandas CSV parsing, sklearn TF-IDF
and cosine similarity) are external dependencies, not code of this
repository; they enter the model as parameters (the raw row list read from
the file, the similarity score vector) or as faithful small models noted in
the doc comments.
-/

/-- A pandas cell value: a string (list of code points), a number, or the
float-NaN missing sentinel produced by pandas for absent cells. -/
inductive Value where
  | str (s : List Nat)
  | num (q : ℚ)
  | nan
deriving DecidableEq, Repr

/-- Models `pd.notna`: every value except the NaN sentinel is present. -/
def Value.notna : Value → Bool
  | .nan => false
  | _ => true

/-- Models Python `isinstance(x, str)`. -/
def Value.isStr : Value → Bool
  | .str _ => true
  | _ => false

/-- A row of the DataFrame with the three columns the program uses. -/
structure Row where
  surah : Value
  verse_number : Value
  verse_text : Value
deriving DecidableEq, Repr

instance : Inhabited Row := ⟨⟨Value.nan, Value.nan, Value.nan⟩⟩

/-! ### Text normalizer (`_normalize_arabic`, find.py lines 23-35) -/

/-- Membership in the character class of the first substitution,
`[ً-ٰٟ]` (Arabic diacritics and superscript alef). -/
def isDiacritic (c : Nat) : Bool :=
  (0x64B ≤ c && c ≤ 0x65F) || c == 0x670

/-- Per-character action of the second substitution, `[إأآا]` → `ا`
(code points 0x625, 0x623, 0x622, 0x627 all map to 0x627). -/
def alefChar (c : Nat) : Nat :=
  if c = 0x625 ∨ c = 0x623 ∨ c = 0x622 ∨ c = 0x627 then 0x627 else c

/-- Per-character action of the third substitution, `[يى]` → `ي`
(code points 0x64A, 0x649 map to 0x64A). -/
def yehChar (c : Nat) : Nat :=
  if c = 0x64A ∨ c = 0x649 then 0x64A else c

/-- Per-character action of the fourth substitution, `ة` → `ه`
(code point 0x629 maps to 0x647). -/
def tehChar (c : Nat) : Nat :=
  if c = 0x629 then 0x647 else c

/-- The four `re.sub` passes of `_normalize_arabic` on a string, in source
order: delete diacritics, then normalize alef, yeh and teh-marbuta. -/
def normalizeChars (s : List Nat) : List Nat :=
  (((s.filter (fun c => !isDiacritic c)).map alefChar).map yehChar).map tehChar

/-- `_normalize_arabic` (find.py lines 23-35): a non-string input yields the
empty string; a string goes through the four substitution passes. -/
def _normalize_arabic : Value → List Nat
  | .str s => normalizeChars s
  | _ => []

/-! ### Corpus loader (`__init__`, find.py lines 8-21) -/

/-- Decimal digit value of a code point, `none` for a non-digit. -/
def digitVal (c : Nat) : Option Nat :=
  if 0x30 ≤ c ∧ c ≤ 0x39 then some (c - 0x30) else none

/-- Parse a nonempty all-digit code-point list as a natural number. -/
def parseNatDigits (cs : List Nat) : Option Nat :=
  if cs.isEmpty then none
  else
    cs.foldl
      (fun acc c =>
        match acc, digitVal c with
        | some n, some d => some (10 * n + d)
        | _, _ => none)
      (some 0)

/-- Modelled from the library: the numeric parse used by
`pd.to_numeric`, restricted to optionally signed integer literals (the
fractional and exponent forms accepted by pandas are not exercised by any
claim; what matters is that a non-numeric string fails to parse). -/
def parseNumber (cs : List Nat) : Option ℚ :=
  match cs with
  | 0x2D :: rest => (parseNatDigits rest).map (fun n => -(n : ℚ))
  | 0x2B :: rest => (parseNatDigits rest).map (fun n => (n : ℚ))
  | _ => (parseNatDigits cs).map (fun n => (n : ℚ))

/-- Models `pd.to_numeric(x, errors=coerce)` on one cell: numbers pass
through, NaN stays NaN, and a string becomes its parsed number or NaN when
it does not parse. -/
def toNumeric : Value → Value
  | .num q => .num q
  | .nan => .nan
  | .str s =>
    match parseNumber s with
    | some q => .num q
    | none => .nan

/-- Models `df.dropna()`: keep only rows with no missing value in any of
the three columns (find.py line 13). -/
def dropnaRows (rows : List Row) : List Row :=
  rows.filter (fun r => r.surah.notna && r.verse_number.notna && r.verse_text.notna)

/-- The pure body of `__init__` after the CSV has been read (find.py
lines 13-17): `dropna`, apply `_normalize_arabic` to `verse_text`, then
`pd.to_numeric(..., errors=coerce)` on `verse_number`. -/
def loadCorpus (rows : List Row) : List Row :=
  ((dropnaRows rows).map
      (fun r => { r with verse_text := Value.str (_normalize_arabic r.verse_text) })).map
    (fun r => { r with verse_number := toNumeric r.verse_number })

/-- Errors observable in the model: the sklearn not-fitted error, a file
read error, a parse error, and the two error classes named by the
specification (`CorpusLoadError` wrapping a cause, and `NotBuiltError`). -/
inductive PyErr where
  | notFitted
  | ioError
  | parseError
  | corpusLoad (cause : PyErr)
  | notBuilt
deriving DecidableEq, Repr

/-- `__init__` (find.py lines 8-21) including its `try/except`: the CSV
read is an external library call and enters as `readResult`; on a read
error the handler prints and re-raises the same exception (`raise` with no
argument), otherwise the pure loading body runs (which cannot raise). -/
def initAnalyzer (readResult : Except PyErr (List Row)) : Except PyErr (List Row) :=
  match readResult with
  | .error e => .error e
  | .ok rows => .ok (loadCorpus rows)

/-! ### Normalizer lemmas -/

/-- The composite per-character map of the three substitution passes. -/
def normChar (c : Nat) : Nat := tehChar (yehChar (alefChar c))

theorem normalizeChars_eq_map (s : List Nat) :
    normalizeChars s = (s.filter (fun c => !isDiacritic c)).map normChar := by
  simp only [normalizeChars, List.map_map]
  rfl

theorem normChar_idem (c : Nat) : normChar (normChar c) = normChar c := by
  unfold normChar tehChar yehChar alefChar
  split_ifs <;> omega

theorem normChar_not_diacritic (c : Nat) (h : isDiacritic c = false) :
    isDiacritic (normChar c) = false := by
  unfold normChar tehChar yehChar alefChar
  split_ifs <;> first | decide | exact h

theorem normalizeChars_idem (s : List Nat) :
    normalizeChars (normalizeChars s) = normalizeChars s := by
  simp only [normalizeChars_eq_map]
  have hall : ∀ a ∈ (s.filter (fun c => !isDiacritic c)).map normChar,
      (!isDiacritic a) = true := by
    intro a ha
    obtain ⟨b, hb, rfl⟩ := List.mem_map.mp ha
    have hbf := List.of_mem_filter hb
    simp only [Bool.not_eq_true'] at hbf ⊢
    exact normChar_not_diacritic b hbf
  rw [List.filter_eq_self.mpr hall, List.map_map]
  exact List.map_congr_left (fun c _ => normChar_idem c)

/-! ### Substring search and the frequency counter
(`analyze_fruits_frequency`, find.py lines 59-88) -/

/-- Models `pandas.Series.str.contains(variant, regex=True)` on one string:
substring search (none of the lexicon variants contains a regex
metacharacter, so the regex search degenerates to substring search; `case`
is irrelevant for Arabic, which has no case). -/
def containsSub (t v : List Nat) : Bool :=
  match t with
  | [] => v.isEmpty
  | c :: t2 => v.isPrefixOf (c :: t2) || containsSub t2 v

/-- One cell of the `str.contains(..., na=False)` mask: a non-string cell
counts as no match. -/
def containsVal (x : Value) (v : List Nat) : Bool :=
  match x with
  | .str s => containsSub s v
  | _ => false

/-- `mask.sum` for one variant (find.py lines 75-81): the number of corpus
rows whose `verse_text` contains the variant. -/
def variantCount (df : List Row) (v : List Nat) : Nat :=
  (df.filter (fun r => containsVal r.verse_text v)).length

/-- The per-category accumulation `count += mask.sum()` over the
category's variants (find.py lines 71-82). -/
def categoryCount (df : List Row) (vars : List (List Nat)) : Nat :=
  (vars.map (variantCount df)).sum

/-- The `fruit_variations` table (find.py lines 63-69), with every string
spelled as its exact code points from the source file.  Category order and
variant order are the source's. -/
def fruit_variations : List (String × List (List Nat)) :=
  [("Palm/نخل",
    [[0x646, 0x62E, 0x644],                         -- نخل
     [0x646, 0x62E, 0x64A, 0x644],                  -- نخيل
     [0x627, 0x644, 0x646, 0x62E, 0x644],           -- النخل
     [0x627, 0x644, 0x646, 0x62E, 0x64A, 0x644],    -- النخيل
     [0x646, 0x62E, 0x644, 0x629],                  -- نخلة
     [0xFEE7, 0xFEA8, 0xFEDE],                      -- presentation forms
     [0xFEE7, 0xFEA8, 0xFBFF, 0xFEDE]]),
   ("Grape/عنب",
    [[0x639, 0x646, 0x628],                         -- عنب
     [0x627, 0x639, 0x646, 0x627, 0x628],           -- اعناب
     [0x627, 0x644, 0x623, 0x639, 0x646, 0x627, 0x628],  -- الأعناب
     [0x627, 0x644, 0x639, 0x646, 0x628],           -- العنب
     [0x623, 0x639, 0x646, 0x627, 0x628],           -- أعناب
     [0x639, 0x646, 0x627, 0x628, 0x627]]),         -- عنابا
   ("Pomegranate/رمان",
    [[0x631, 0x645, 0x627, 0x646],                  -- رمان
     [0x627, 0x644, 0x631, 0x645, 0x627, 0x646],    -- الرمان
     [0x631, 0x645, 0x651, 0x627, 0x646],           -- رمّان
     [0x627, 0x644, 0x631, 0x645, 0x651, 0x627, 0x646],  -- الرمّان
     [0x631, 0x645, 0x651, 0x627, 0x646, 0x64C],    -- رمّانٌ
     [0x648, 0x627, 0x644, 0x631, 0x645, 0x651, 0x627, 0x646]]),  -- والرمّان
   ("Olive/زيتون",
    [[0x632, 0x64A, 0x62A, 0x648, 0x646],           -- زيتون
     [0x627, 0x644, 0x632, 0x64A, 0x62A, 0x648, 0x646],  -- الزيتون
     [0x632, 0x64A, 0x62A, 0x648, 0x646, 0x629],    -- زيتونة
     [0x632, 0x64A, 0x62A, 0x648, 0x646, 0x627, 0x64B],  -- زيتوناً
     [0x648, 0x627, 0x644, 0x632, 0x64A, 0x62A, 0x648, 0x646]]),  -- والزيتون
   ("Fig/تين",
    [[0x62A, 0x64A, 0x646],                         -- تين
     [0x627, 0x644, 0x62A, 0x64A, 0x646],           -- التين
     [0x648, 0x627, 0x644, 0x62A, 0x64A, 0x646]])]  -- والتين

/-- `analyze_fruits_frequency` (find.py lines 59-88): for each category of
`fruit_variations` in order, the summed per-variant row counts.  The
`except` branch (which returns an empty dict) is reachable only through
library failures outside the model, such as a missing column. -/
def analyze_fruits_frequency (df : List Row) : List (String × Nat) :=
  fruit_variations.map (fun fv => (fv.1, categoryCount df fv.2))

/-- A character the normalizer removes or rewrites to a different
character: the diacritics, the hamza-carrying alefs `أ إ آ`
(0x623, 0x625, 0x622), teh-marbuta `ة` (0x629), and alef-maksura `ى`
(0x649).  (`ا` and `ي` are fixed points of their passes and so are not
included.) -/
def removedChar (c : Nat) : Bool :=
  isDiacritic c || c == 0x622 || c == 0x623 || c == 0x625 || c == 0x629 || c == 0x649

theorem normChar_not_removed (c : Nat) (h : isDiacritic c = false) :
    removedChar (normChar c) = false := by
  unfold normChar tehChar yehChar alefChar
  split_ifs <;>
    first
      | decide
      | (simp only [removedChar, h, Bool.false_or, Bool.or_eq_false_iff,
           beq_eq_false_iff_ne, ne_eq]
         omega)

theorem not_removed_of_mem_normalizeChars (s : List Nat) (c : Nat)
    (h : c ∈ normalizeChars s) : removedChar c = false := by
  rw [normalizeChars_eq_map] at h
  obtain ⟨b, hb, rfl⟩ := List.mem_map.mp h
  have hbf := List.of_mem_filter hb
  simp only [Bool.not_eq_true'] at hbf
  exact normChar_not_removed b hbf

theorem subset_of_containsSub (t v : List Nat) (h : containsSub t v = true) :
    ∀ c ∈ v, c ∈ t := by
  induction t with
  | nil =>
    simp only [containsSub, List.isEmpty_iff] at h
    subst h
    intro c hc
    exact absurd hc (List.not_mem_nil c)
  | cons a t2 ih =>
    simp only [containsSub, Bool.or_eq_true] at h
    rcases h with h | h
    · have hpre : v <+: a :: t2 := by
        rwa [List.isPrefixOf_iff_prefix] at h
      exact fun c hc => hpre.subset hc
    · exact fun c hc => List.mem_cons_of_mem a (ih h c hc)

/-- A variant containing a removed-or-rewritten character can never be
found in a normalizer output. -/
theorem containsSub_normalized_eq_false (s v : List Nat) (c : Nat)
    (hcv : c ∈ v) (hc : removedChar c = true) :
    containsSub (normalizeChars s) v = false := by
  by_contra hcon
  rw [Bool.not_eq_false] at hcon
  have : c ∈ normalizeChars s := subset_of_containsSub _ _ hcon c hcv
  rw [not_removed_of_mem_normalizeChars s c this] at hc
  exact Bool.false_ne_true hc

/-! ### Similarity query (`find_related_verses`, find.py lines 46-57)

The TF-IDF vectorizer and `cosine_similarity` are sklearn library calls;
the similarity row `similarity[0]` enters the model as a score vector
`scores : List ℚ` whose `i`-th entry is the cosine similarity of the query
against document `i`.  `numpy.argsort` is modelled as the stable ascending
argsort, i.e. sorting the indices by the key (score, index); numpy's
default introsort coincides with this on the small concrete arrays
evaluated below. -/

/-- The ordering of indices used by the stable ascending argsort: by score,
ties by index. -/
def keyLe (scores : List ℚ) (i j : Nat) : Prop :=
  scores.getD i 0 < scores.getD j 0 ∨ (scores.getD i 0 = scores.getD j 0 ∧ i ≤ j)

instance keyLe.decidableRel (scores : List ℚ) : DecidableRel (keyLe scores) :=
  fun _ _ => inferInstanceAs (Decidable (_ ∨ _ ∧ _))

instance keyLe.isTotal (scores : List ℚ) : IsTotal Nat (keyLe scores) := by
  constructor
  intro i j
  rcases lt_trichotomy (scores.getD i 0) (scores.getD j 0) with h | h | h
  · exact Or.inl (Or.inl h)
  · rcases Nat.le_total i j with hij | hij
    · exact Or.inl (Or.inr ⟨h, hij⟩)
    · exact Or.inr (Or.inr ⟨h.symm, hij⟩)
  · exact Or.inr (Or.inl h)

instance keyLe.isTrans (scores : List ℚ) : IsTrans Nat (keyLe scores) := by
  constructor
  intro i j k hij hjk
  rcases hij with h1 | ⟨h1, h1n⟩ <;> rcases hjk with h2 | ⟨h2, h2n⟩
  · exact Or.inl (h1.trans h2)
  · exact Or.inl (h2 ▸ h1)
  · exact Or.inl (h1 ▸ h2)
  · exact Or.inr ⟨h1.trans h2, h1n.trans h2n⟩

/-- Stable ascending `numpy.argsort` of the similarity row. -/
def argsortStable (scores : List ℚ) : List Nat :=
  List.insertionSort (keyLe scores) (List.range scores.length)

/-- Python slice `a[-k:]` for a nonnegative `k`: the last `k` elements,
the whole list when `k = 0` (since `-0 == 0`) or when `k` exceeds the
length. -/
def sliceLast (l : List Nat) (k : Nat) : List Nat :=
  if k = 0 then l else l.drop (l.length - k)

/-- The index computation of find.py line 51:
`similarity[0].argsort()[-top_n:][::-1]`. -/
def findRelatedIdx (scores : List ℚ) (top_n : Nat) : List Nat :=
  (sliceLast (argsortStable scores) top_n).reverse

/-- The result rows of find.py lines 52-54: `df.iloc[valid_indices]`
followed by the defensive `notna` filter on `verse_text` and `surah`. -/
def queryRows (scores : List ℚ) (df : List Row) (top_n : Nat) : List Row :=
  ((findRelatedIdx scores top_n).map (fun i => df.getD i default)).filter
    (fun r => r.verse_text.notna && r.surah.notna)

/-- The body of the `try` block of `find_related_verses` (find.py lines
47-54): calling `self.vectorizer.transform` on an unfitted vectorizer
raises the sklearn not-fitted error; otherwise the query pipeline runs. -/
def findRelatedBody (fitted : Bool) (scores : List ℚ) (df : List Row)
    (top_n : Nat) : Except PyErr (List Row) :=
  if fitted then .ok (queryRows scores df top_n) else .error .notFitted

/-- `find_related_verses` (find.py lines 46-57) including its
`try/except`: any exception is caught, a message is printed, and an empty
DataFrame is returned — the method itself never raises. -/
def find_related_verses (fitted : Bool) (scores : List ℚ) (df : List Row)
    (top_n : Nat) : Except PyErr (List Row) :=
  match findRelatedBody fitted scores df top_n with
  | .ok r => .ok r
  | .error _ => .ok []

/-! ### Query lemmas -/

open scoped List

theorem sliceLast_sublist (l : List Nat) (k : Nat) : sliceLast l k <+ l := by
  unfold sliceLast
  split_ifs
  · exact List.Sublist.refl l
  · exact List.drop_sublist _ l

theorem argsortStable_perm (scores : List ℚ) :
    argsortStable scores ~ List.range scores.length :=
  List.perm_insertionSort _ _

theorem pairwise_findRelatedIdx (scores : List ℚ) (top_n : Nat) :
    (findRelatedIdx scores top_n).Pairwise
      (fun i j => keyLe scores j i ∧ j ≠ i) := by
  have hs : (argsortStable scores).Pairwise (keyLe scores) :=
    List.sorted_insertionSort _ _
  have hn : (argsortStable scores).Pairwise (fun i j => i ≠ j) :=
    (argsortStable_perm scores).symm.nodup (List.nodup_range _)
  have hpw : (argsortStable scores).Pairwise
      (fun i j => keyLe scores i j ∧ i ≠ j) := hs.and hn
  have hslice := hpw.sublist (sliceLast_sublist (argsortStable scores) top_n)
  exact List.pairwise_reverse.mpr hslice

theorem mem_findRelatedIdx_lt (scores : List ℚ) (top_n i : Nat)
    (h : i ∈ findRelatedIdx scores top_n) : i < scores.length := by
  unfold findRelatedIdx at h
  rw [List.mem_reverse] at h
  have h2 : i ∈ argsortStable scores :=
    (sliceLast_sublist (argsortStable scores) top_n).subset h
  have h3 : i ∈ List.range scores.length := (argsortStable_perm scores).subset h2
  exact List.mem_range.mp h3

theorem length_findRelatedIdx_le (scores : List ℚ) (top_n : Nat)
    (h : 0 < top_n) : (findRelatedIdx scores top_n).length ≤ top_n := by
  unfold findRelatedIdx sliceLast
  have hlen : (argsortStable scores).length = scores.length := by
    unfold argsortStable
    rw [List.length_insertionSort, List.length_range]
  split_ifs with h0
  · omega
  · rw [List.length_reverse, List.length_drop]
    omega

theorem findRelatedIdx_perm_of_le (scores : List ℚ) (top_n : Nat)
    (h : scores.length ≤ top_n) :
    findRelatedIdx scores top_n ~ List.range scores.length := by
  unfold findRelatedIdx
  have hlen : (argsortStable scores).length = scores.length := by
    unfold argsortStable
    rw [List.length_insertionSort, List.length_range]
  have hs : sliceLast (argsortStable scores) top_n = argsortStable scores := by
    unfold sliceLast
    split_ifs with h0
    · rfl
    · have : (argsortStable scores).length - top_n = 0 := by omega
      rw [this, List.drop_zero]
  rw [hs]
  exact (List.reverse_perm _).trans (argsortStable_perm scores)

theorem map_getD_range (df : List Row) :
    (List.range df.length).map (fun i => df.getD i default) = df := by
  apply List.ext_getElem
  · rw [List.length_map, List.length_range]
  · intro i h1 h2
    rw [List.getElem_map, List.getElem_range, List.getD_eq_getElem?_getD,
      List.getElem?_eq_getElem h2]
    rfl

theorem mem_queryRows_mem_df (scores : List ℚ) (df : List Row) (top_n : Nat)
    (hlen : scores.length = df.length) :
    ∀ r ∈ queryRows scores df top_n, r ∈ df := by
  intro r hr
  unfold queryRows at hr
  have hr2 := List.mem_of_mem_filter hr
  obtain ⟨i, hi, rfl⟩ := List.mem_map.mp hr2
  have hilt : i < df.length := hlen ▸ mem_findRelatedIdx_lt scores top_n i hi
  rw [List.getD_eq_getElem?_getD, List.getElem?_eq_getElem hilt, Option.getD_some]
  exact List.getElem_mem hilt

/-! ### Helper lemmas for the loader and the frequency counter -/

theorem toNumeric_shape (v : Value) :
    (∃ q, toNumeric v = Value.num q) ∨ toNumeric v = Value.nan := by
  cases v with
  | num q => exact Or.inl ⟨q, rfl⟩
  | nan => exact Or.inr rfl
  | str s =>
    rcases h : parseNumber s with _ | q <;> simp [toNumeric, h]

theorem categoryCount_singleton (r : Row) (vars : List (List Nat)) :
    categoryCount [r] vars =
      (vars.filter (fun v => containsVal r.verse_text v)).length := by
  induction vars with
  | nil => rfl
  | cons v vs ih =>
    simp only [categoryCount, List.map_cons, List.sum_cons] at ih ⊢
    rw [List.filter_cons]
    by_cases h : containsVal r.verse_text v = true
    · have hv : variantCount [r] v = 1 := by
        simp [variantCount, List.filter, h]
      simp only [h, if_true, List.length_cons]
      omega
    · have hb : containsVal r.verse_text v = false := by
        simpa using h
      have hv : variantCount [r] v = 0 := by
        simp [variantCount, List.filter, hb]
      simp only [hb, Bool.false_eq_true, if_false]
      omega

/-! ### Concrete fixtures used by counterexamples and witnesses -/

/-- A fully present row: surah "1", verse number 1, verse text "ن". -/
def qRow1 : Row := ⟨Value.str [0x31], Value.num 1, Value.str [0x646]⟩

/-- A fully present row: surah "2", verse number 2, verse text "ل". -/
def qRow2 : Row := ⟨Value.str [0x32], Value.num 2, Value.str [0x644]⟩

/-- Witness corpus for the query claims. -/
def dfW : List Row := [qRow1, qRow2]

/-- Witness similarity row for the query claims. -/
def scW : List ℚ := [1, 0]

/-- A one-row corpus whose `verse_text` is the normalizer output of
"رمّان" (which is "رمان": the shadda is deleted). -/
def dfN : List Row :=
  [⟨Value.str [0x31], Value.num 1,
    Value.str (normalizeChars [0x631, 0x645, 0x651, 0x627, 0x646])⟩]

/-! ### Claim theorems -/

/-- C1 counterexample: with the index unbuilt, `find_related_verses` does
not raise `NotBuiltError`; the sklearn not-fitted exception is caught by
the `except` block and the empty DataFrame is returned. -/
theorem c1_counterexample :
    find_related_verses false scW dfW 5 = Except.ok [] ∧
    find_related_verses false scW dfW 5 ≠ Except.error PyErr.notBuilt := by
  refine ⟨rfl, ?_⟩
  intro h
  exact Except.noConfusion h

/-- C1 (amended): for every query against an unbuilt index,
`find_related_verses` silently returns the empty result; inside the `try`
block the not-fitted error is raised but the handler swallows it. -/
theorem c1_query_unbuilt_returns_empty (scores : List ℚ) (df : List Row)
    (top_n : Nat) :
    find_related_verses false scores df top_n = Except.ok [] ∧
    findRelatedBody false scores df top_n = Except.error PyErr.notFitted :=
  ⟨rfl, rfl⟩

/-- C2 counterexample: with two documents of equal score and `top_n = 2`,
the returned index order is `[1, 0]` — tied documents appear in reversed
corpus order, not original corpus order, because the ascending argsort is
reversed by `[::-1]`. -/
theorem c2_counterexample :
    findRelatedIdx [(1 : ℚ), 1] 2 = [1, 0] ∧
    ¬ (findRelatedIdx [(1 : ℚ), 1] 2).Pairwise
        (fun i j => [(1 : ℚ), 1].getD i 0 = [(1 : ℚ), 1].getD j 0 → i < j) := by
  refine ⟨by decide, ?_⟩
  intro h
  rw [(by decide : findRelatedIdx [(1 : ℚ), 1] 2 = [1, 0])] at h
  have h10 := (List.pairwise_cons.mp h).1 0 (by simp)
  have := h10 (by norm_num)
  omega

/-- C2 (amended): among documents with equal similarity scores, the query
result lists them in strictly decreasing corpus-index order (the stable
ascending argsort is sliced and then reversed). -/
theorem c2_ties_reverse_corpus_order (scores : List ℚ) (top_n : Nat) :
    (findRelatedIdx scores top_n).Pairwise
      (fun i j => scores.getD i 0 = scores.getD j 0 → j < i) := by
  refine (pairwise_findRelatedIdx scores top_n).imp ?_
  intro i j hij heq
  rcases hij.1 with hlt | ⟨_, hle⟩
  · exact absurd hlt (by rw [heq]; exact lt_irrefl _)
  · exact lt_of_le_of_ne hle hij.2

/-- C3 counterexample: a raw row whose `verse_number` is the non-numeric
string "a" survives `dropna` (it is not missing) and is then coerced to
NaN by `pd.to_numeric(errors=coerce)`, so the loaded corpus contains a
record with a missing `verse_number`. -/
theorem c3_counterexample :
    ¬ (∀ r ∈ loadCorpus [⟨Value.str [0x31], Value.str [0x61], Value.str [0x78]⟩],
        r.verse_number.notna = true) := by
  decide

/-- C3 (amended): every loaded record has a present `surah` and a string
`verse_text`, the loaded corpus is no longer than the raw input, and
`verse_number` is numeric or the NaN sentinel (the coercion may reintroduce
NaN after `dropna`). -/
theorem c3_loader_fields (rows : List Row) :
    (loadCorpus rows).length ≤ rows.length ∧
    ∀ r ∈ loadCorpus rows,
      r.surah.notna = true ∧ r.verse_text.isStr = true ∧
      ((∃ q, r.verse_number = Value.num q) ∨ r.verse_number = Value.nan) := by
  constructor
  · unfold loadCorpus
    rw [List.length_map, List.length_map]
    exact List.length_filter_le _ rows
  · intro r hr
    unfold loadCorpus at hr
    obtain ⟨r1, hr1, rfl⟩ := List.mem_map.mp hr
    obtain ⟨r0, hr0, rfl⟩ := List.mem_map.mp hr1
    have hp := List.of_mem_filter hr0
    simp only [Bool.and_eq_true] at hp
    exact ⟨hp.1.1, rfl, toNumeric_shape r0.verse_number⟩

/-- C3 witness: the amended loader theorem evaluated on the concrete
counterexample corpus. -/
theorem c3_loader_fields_witness :
    ((⟨Value.str [0x31], Value.nan, Value.str [0x78]⟩ : Row) ∈
        loadCorpus [⟨Value.str [0x31], Value.str [0x61], Value.str [0x78]⟩]) ∧
    (Value.notna (Value.str [0x31]) = true ∧
      Value.isStr (Value.str [0x78]) = true ∧
      ((∃ q, (Value.nan : Value) = Value.num q) ∨ (Value.nan : Value) = Value.nan)) :=
  ⟨by decide,
    (c3_loader_fields [⟨Value.str [0x31], Value.str [0x61], Value.str [0x78]⟩]).2
      ⟨Value.str [0x31], Value.nan, Value.str [0x78]⟩ (by decide)⟩

/-- C4: the text normalizer is idempotent — normalizing an already
normalized string changes nothing. -/
theorem c4_normalize_idempotent (s : List Nat) :
    _normalize_arabic (Value.str (_normalize_arabic (Value.str s))) =
      _normalize_arabic (Value.str s) := by
  simp only [_normalize_arabic]
  exact normalizeChars_idem s

/-- C5: the frequency counter counts a row once per matching variant (no
deduplication across variants of one category), and on the concrete
single-row corpus whose text "نخل نخيل" contains two distinct Palm
variants the Palm count is 2. -/
theorem c5_double_counting :
    (∀ (r : Row) (vars : List (List Nat)),
      categoryCount [r] vars =
        (vars.filter (fun v => containsVal r.verse_text v)).length) ∧
    analyze_fruits_frequency
        [⟨Value.str [0x31], Value.num 1,
          Value.str [0x646, 0x62E, 0x644, 0x20, 0x646, 0x62E, 0x64A, 0x644]⟩] =
      [("Palm/نخل", 2), ("Grape/عنب", 0), ("Pomegranate/رمان", 0),
       ("Olive/زيتون", 0), ("Fig/تين", 0)] :=
  ⟨categoryCount_singleton, by decide⟩

/-- C6: a built-index query returns at most `top_n` rows, every returned
row is a corpus row, the selected indices are ordered by non-increasing
similarity score, and when `top_n` covers the whole corpus (and the
defensive `notna` filter passes, as the loader guarantees) the result is a
permutation of the corpus. -/
theorem c6_query_top_n (scores : List ℚ) (df : List Row) (top_n : Nat)
    (hlen : scores.length = df.length) (htop : 0 < top_n) :
    find_related_verses true scores df top_n = Except.ok (queryRows scores df top_n) ∧
    (queryRows scores df top_n).length ≤ top_n ∧
    (∀ r ∈ queryRows scores df top_n, r ∈ df) ∧
    (findRelatedIdx scores top_n).Pairwise
      (fun i j => scores.getD j 0 ≤ scores.getD i 0) ∧
    (df.length ≤ top_n →
      (∀ r ∈ df, (r.verse_text.notna && r.surah.notna) = true) →
      queryRows scores df top_n ~ df) := by
  refine ⟨rfl, ?_, mem_queryRows_mem_df scores df top_n hlen, ?_, ?_⟩
  · unfold queryRows
    calc ((((findRelatedIdx scores top_n).map (fun i => df.getD i default)).filter
            (fun r => r.verse_text.notna && r.surah.notna))).length
        ≤ (((findRelatedIdx scores top_n).map (fun i => df.getD i default))).length :=
          List.length_filter_le _ _
      _ = (findRelatedIdx scores top_n).length := List.length_map _ _
      _ ≤ top_n := length_findRelatedIdx_le scores top_n htop
  · refine (pairwise_findRelatedIdx scores top_n).imp ?_
    intro i j hij
    rcases hij.1 with hlt | ⟨heq, _⟩
    · exact le_of_lt hlt
    · exact le_of_eq heq
  · intro hle hall
    unfold queryRows
    have hperm : findRelatedIdx scores top_n ~ List.range df.length := by
      have h1 := findRelatedIdx_perm_of_le scores top_n (by omega)
      rwa [hlen] at h1
    have hmap : ((findRelatedIdx scores top_n).map (fun i => df.getD i default)) ~ df := by
      have h2 := hperm.map (fun i => df.getD i default)
      rwa [map_getD_range df] at h2
    have hfe : (((findRelatedIdx scores top_n).map (fun i => df.getD i default)).filter
        (fun r => r.verse_text.notna && r.surah.notna)) =
        ((findRelatedIdx scores top_n).map (fun i => df.getD i default)) :=
      List.filter_eq_self.mpr (fun r hr => hall r (hmap.subset hr))
    rw [hfe]
    exact hmap

/-- C6 witness: the query theorem evaluated on a concrete two-document
corpus with distinct scores and `top_n = 2`. -/
theorem c6_query_top_n_witness :
    (scW.length = dfW.length ∧ 0 < 2) ∧
    (find_related_verses true scW dfW 2 = Except.ok (queryRows scW dfW 2) ∧
     (queryRows scW dfW 2).length ≤ 2 ∧
     (∀ r ∈ queryRows scW dfW 2, r ∈ dfW) ∧
     (findRelatedIdx scW 2).Pairwise (fun i j => scW.getD j 0 ≤ scW.getD i 0) ∧
     (dfW.length ≤ 2 →
       (∀ r ∈ dfW, (r.verse_text.notna && r.surah.notna) = true) →
       queryRows scW dfW 2 ~ dfW)) :=
  ⟨⟨rfl, by decide⟩, c6_query_top_n scW dfW 2 rfl (by decide)⟩

/-- C7: counting on the empty corpus raises nothing and returns all five
categories mapped to 0, and every returned count is a non-negative
integer. -/
theorem c7_empty_corpus_counts :
    analyze_fruits_frequency [] =
      [("Palm/نخل", 0), ("Grape/عنب", 0), ("Pomegranate/رمان", 0),
       ("Olive/زيتون", 0), ("Fig/تين", 0)] ∧
    ∀ (df : List Row), ∀ p ∈ analyze_fruits_frequency df, 0 ≤ (p.2 : Int) :=
  ⟨by decide, fun _ p _ => Int.natCast_nonneg p.2⟩

/-- C7 witness: the empty-corpus theorem evaluated at the Palm entry. -/
theorem c7_empty_corpus_counts_witness :
    (("Palm/نخل", 0) ∈ analyze_fruits_frequency []) ∧ 0 ≤ ((0 : Nat) : Int) :=
  ⟨by decide, c7_empty_corpus_counts.2 [] ("Palm/نخل", 0) (by decide)⟩

/-- C8 counterexample: when the CSV read fails, `__init__` re-raises the
raw underlying exception unchanged; no `CorpusLoadError` wrapper exists in
the code. -/
theorem c8_counterexample :
    initAnalyzer (Except.error PyErr.ioError) = Except.error PyErr.ioError ∧
    initAnalyzer (Except.error PyErr.ioError) ≠
      Except.error (PyErr.corpusLoad PyErr.ioError) := by
  refine ⟨rfl, ?_⟩
  intro h
  rw [(rfl : initAnalyzer (Except.error PyErr.ioError) =
      Except.error PyErr.ioError)] at h
  injection h with h2
  exact PyErr.noConfusion h2

/-- C8 (amended): a failed read propagates the raw underlying exception
type unchanged (after printing), and a successful read yields the loaded
corpus; the failure is fatal since `__init__` re-raises. -/
theorem c8_load_error_propagates_raw (e : PyErr) (rows : List Row) :
    initAnalyzer (Except.error e) = Except.error e ∧
    initAnalyzer (Except.ok rows) = Except.ok (loadCorpus rows) :=
  ⟨rfl, rfl⟩

/-- C9: the normalizer is total over non-string inputs — any non-string
value yields the empty string, never an error. -/
theorem c9_normalize_total (v : Value) (h : v.isStr = false) :
    _normalize_arabic v = [] := by
  cases v with
  | str s => simp [Value.isStr] at h
  | num q => rfl
  | nan => rfl

/-- C9 witness: the totality theorem evaluated at the number 3. -/
theorem c9_normalize_total_witness :
    Value.isStr (Value.num 3) = false ∧ _normalize_arabic (Value.num 3) = [] :=
  ⟨rfl, c9_normalize_total (Value.num 3) rfl⟩

/-- C10 counterexample: the presentation-form variant "ﻧﺨﻞ" is NOT
removed or rewritten by the normalizer (its code points lie outside every
substitution class), so it can match a corpus row whose text is a
normalizer output, contributing 1 — refuting the claim that
presentation-form variants always contribute 0. -/
theorem c10_counterexample :
    normalizeChars [0xFEE7, 0xFEA8, 0xFEDE] = [0xFEE7, 0xFEA8, 0xFEDE] ∧
    variantCount
        [⟨Value.str [0x31], Value.num 1,
          Value.str (normalizeChars [0xFEE7, 0xFEA8, 0xFEDE])⟩]
        [0xFEE7, 0xFEA8, 0xFEDE] = 1 ∧
    variantCount
        [⟨Value.str [0x31], Value.num 1,
          Value.str (normalizeChars [0xFEE7, 0xFEA8, 0xFEDE])⟩]
        [0xFEE7, 0xFEA8, 0xFEDE] ≠ 0 := by
  refine ⟨by decide, by decide, ?_⟩
  decide

/-- C10 (amended): on a corpus whose `verse_text` values are normalizer
outputs, any variant containing a character the normalizer deletes or
rewrites to a different character (a diacritic, a hamza-carrying alef, a
teh-marbuta, or an alef-maksura) matches no row and contributes 0; the
lexicon variants رمّان, أعناب, زيتونة and نخلة all contain such a
character.  (Presentation-form variants are excluded: the normalizer does
not touch them.) -/
theorem c10_removed_variants_zero (df : List Row) (v : List Nat)
    (hdf : ∀ r ∈ df, ∃ s, r.verse_text = Value.str (normalizeChars s))
    (hv : ∃ c ∈ v, removedChar c = true) :
    variantCount df v = 0 ∧
    (∀ vbad ∈ [[0x631, 0x645, 0x651, 0x627, 0x646],
               [0x623, 0x639, 0x646, 0x627, 0x628],
               [0x632, 0x64A, 0x62A, 0x648, 0x646, 0x629],
               [0x646, 0x62E, 0x644, 0x629]],
      ∃ c ∈ vbad, removedChar c = true) := by
  constructor
  · unfold variantCount
    rw [List.length_eq_zero, List.filter_eq_nil_iff]
    intro r hr
    obtain ⟨s, hs⟩ := hdf r hr
    obtain ⟨c, hcv, hc⟩ := hv
    simp only [containsVal, hs]
    rw [containsSub_normalized_eq_false s v c hcv hc]
    exact Bool.false_ne_true
  · decide

/-- C10 witness: the amended theorem evaluated on the concrete normalized
one-row corpus and the lexicon variant أعناب. -/
theorem c10_removed_variants_zero_witness :
    (∀ r ∈ dfN, ∃ s, r.verse_text = Value.str (normalizeChars s)) ∧
    (∃ c ∈ [0x623, 0x639, 0x646, 0x627, 0x628], removedChar c = true) ∧
    variantCount dfN [0x623, 0x639, 0x646, 0x627, 0x628] = 0 := by
  have hdf : ∀ r ∈ dfN, ∃ s, r.verse_text = Value.str (normalizeChars s) := by
    intro r hr
    unfold dfN at hr
    rw [List.mem_singleton] at hr
    subst hr
    exact ⟨[0x631, 0x645, 0x651, 0x627, 0x646], rfl⟩
  refine ⟨hdf, by decide, ?_⟩
  exact (c10_removed_variants_zero dfN [0x623, 0x639, 0x646, 0x627, 0x628] hdf
    (by decide)).1
